import Mathlib

/-!
Verification of the cometblue_lite thermostat driver
(`cometblue_lite/cometblue.py`) against its natural-language specification.

The Python module is shallowly embedded below.  Conventions:

* Python `bytes` values are `List Nat` with each element below 256.
* `struct.unpack('<bbbbbbb', v)` is modelled by decoding each byte with
  `toSByte`; `struct.pack` of a signed / unsigned byte is modelled by
  `packSByte` / `packUByte`, which fail with `PyError.structError` exactly
  when CPython's `struct` raises `struct.error` (value out of range or a
  buffer of the wrong length).
* Python `float` fields only ever hold multiples of 0.5 in the code paths
  the claims quantify over (values of the form `signed_byte / 2.0`), and
  every arithmetic operation performed on them (`* 2.0`, `/ 2.0`, equality
  with `7.5`, `int(...)` truncation) is exact on such values, so floats are
  embedded as exact rationals `ℚ`.
* A Python `dict` is an insertion-ordered association list; the values held
  in `CometBlueStates._status` are either `bool`s or `int`s, modelled by
  `StatusVal`.
* Raised exceptions are modelled with `Except PyError`; a function that
  cannot raise on the modelled domain is total.
-/

/-- Python exception classes that the modelled code can raise or catch. -/
inductive PyError where
  | structError
  | keyError
  | bleakError (msg : String)
  | runtimeError (msg : String)
  | otherError (msg : String)
deriving DecidableEq, Repr

/-- A value stored in the `_status` dict of `CometBlueStates`: the named
flags are Python `bool`s, while `state_as_dword` and `unused_bits` are
Python `int`s. -/
inductive StatusVal where
  | vBool (b : Bool)
  | vInt (n : Nat)
deriving DecidableEq, Repr

/-- Python truthiness of a `_status` dict value (`if not state: continue`). -/
def StatusVal.isTruthy : StatusVal → Bool
  | .vBool b => b
  | .vInt n => n ≠ 0

/-- Python `v is True` (only the actual `bool` `True` passes). -/
def StatusVal.isTrueLit : StatusVal → Bool
  | .vBool b => b
  | .vInt _ => false

/-- The fields of `CometBlueStates` that the claims observe.  Device-info
strings and the battery level are carried by the Python object as well but
are never touched by the operations modelled here. -/
structure CBState where
  is_off : Bool
  _status : List (String × StatusVal)
  _current_temp : Option ℚ
  target_temperature : Option ℚ
  target_temp_l : Option ℚ
  target_temp_h : Option ℚ
  offset_temperature : Option ℚ
  window_open_detection : Option Int
  window_open_minutes : Option Int
deriving DecidableEq, Repr

/-- `CometBlueStates.__init__` followed by `clear_temperatures`: every
field absent, no status known, not off. -/
def initState : CBState :=
  { is_off := false
    _status := []
    _current_temp := none
    target_temperature := none
    target_temp_l := none
    target_temp_h := none
    offset_temperature := none
    window_open_detection := none
    window_open_minutes := none }

/-- `CometBlueStates.TEMPERATURE_OFF = 7.5`. -/
def TEMPERATURE_OFF : ℚ := 15 / 2

/-- Decode one byte of `struct.unpack('<b...', ...)` as a signed byte. -/
def toSByte (b : Nat) : Int :=
  if b < 128 then (b : Int) else (b : Int) - 256

/-- Python `int(q)` on an exact rational: truncation toward zero
(`Int.div` is T-division). -/
def truncQ (q : ℚ) : Int := Int.tdiv q.num (q.den : Int)

/-- `struct.pack('<b', n)`: signed byte, fails outside `[-128, 127]`. -/
def packSByte (n : Int) : Except PyError Nat :=
  if -128 ≤ n ∧ n ≤ 127 then .ok (Int.emod n 256).toNat else .error .structError

/-- `struct.pack('<B', n)`: unsigned byte, fails outside `[0, 255]`. -/
def packUByte (n : Int) : Except PyError Nat :=
  if 0 ≤ n ∧ n ≤ 255 then .ok n.toNat else .error .structError

/-- `float_to_int` inside the `temperatures` getter:
`-128 if value is None else int(value * 2.0)`. -/
def float_to_int (v : Option ℚ) : Int :=
  match v with
  | none => -128
  | some q => truncQ (q * 2)

/-- `int_to_int` inside the `temperatures` getter:
`-128 if value is None else int(value)`. -/
def int_to_int (v : Option Int) : Int :=
  match v with
  | none => -128
  | some n => n

/-- `CometBlueStates.temperatures` getter: packs, in order, the constant
`-128` current-temp slot, the four float fields via `float_to_int` and the
two integer fields via `int_to_int` with `struct.pack('<bbbbbbb', ...)`. -/
def temperatures_get (s : CBState) : Except PyError (List Nat) :=
  match packSByte (-128), packSByte (float_to_int s.target_temperature),
        packSByte (float_to_int s.target_temp_l),
        packSByte (float_to_int s.target_temp_h),
        packSByte (float_to_int s.offset_temperature),
        packSByte (int_to_int s.window_open_detection),
        packSByte (int_to_int s.window_open_minutes) with
  | .ok b0, .ok b1, .ok b2, .ok b3, .ok b4, .ok b5, .ok b6 =>
      .ok [b0, b1, b2, b3, b4, b5, b6]
  | .error e, _, _, _, _, _, _ => .error e
  | _, .error e, _, _, _, _, _ => .error e
  | _, _, .error e, _, _, _, _ => .error e
  | _, _, _, .error e, _, _, _ => .error e
  | _, _, _, _, .error e, _, _ => .error e
  | _, _, _, _, _, .error e, _ => .error e
  | _, _, _, _, _, _, .error e => .error e

/-- `CometBlueStates.temperatures` setter: unpack seven signed bytes
(`struct.error` unless the buffer is exactly 7 bytes), abort unchanged if
the sentinel `-128` occurs anywhere, otherwise set `is_off` (preserving
`target_temperature` when the manual temperature equals
`TEMPERATURE_OFF`) and overwrite the remaining fields. -/
def temperatures_set (s : CBState) (v : List Nat) : Except PyError CBState :=
  match v with
  | [c0, c1, c2, c3, c4, c5, c6] =>
    let t0 := toSByte c0
    let t1 := toSByte c1
    let t2 := toSByte c2
    let t3 := toSByte c3
    let t4 := toSByte c4
    let t5 := toSByte c5
    let t6 := toSByte c6
    if (-128 : Int) ∈ [t0, t1, t2, t3, t4, t5, t6] then .ok s
    else
      let s1 :=
        if (t1 : ℚ) / 2 = TEMPERATURE_OFF then
          { s with is_off := true }
        else
          { s with is_off := false, target_temperature := some ((t1 : ℚ) / 2) }
      .ok { s1 with
              _current_temp := some ((t0 : ℚ) / 2)
              target_temp_l := some ((t2 : ℚ) / 2)
              target_temp_h := some ((t3 : ℚ) / 2)
              offset_temperature := some ((t4 : ℚ) / 2)
              window_open_detection := some t5
              window_open_minutes := some t6 }
  | _ => .error .structError

/-- `CometBlueStates.clear_temperatures`: reset the six target
temperature-family fields to `None`. -/
def clear_temperatures (s : CBState) : CBState :=
  { s with
      target_temperature := none
      target_temp_l := none
      target_temp_h := none
      offset_temperature := none
      window_open_detection := none
      window_open_minutes := none }

/-- An element of the Python `set` built by `all_temperatures_none`: the
four float fields and the two int fields of the state (or `none`). -/
inductive PyVal where
  | vQ (q : ℚ)
  | vI (n : Int)
deriving DecidableEq, Repr

/-- `CometBlueStates.all_temperatures_none`:
`values = set((tt, tl, th, off, wod, wom)); values.remove(None);
return len(values) == 0`.  `set.remove(None)` raises `KeyError` exactly
when none of the six fields is `None`; otherwise the result is whether the
set holds nothing but `None`. -/
def all_temperatures_none (s : CBState) : Except PyError Bool :=
  let values : List (Option PyVal) :=
    ([s.target_temperature.map PyVal.vQ,
      s.target_temp_l.map PyVal.vQ,
      s.target_temp_h.map PyVal.vQ,
      s.offset_temperature.map PyVal.vQ,
      s.window_open_detection.map PyVal.vI,
      s.window_open_minutes.map PyVal.vI]).dedup
  if (none : Option PyVal) ∈ values then
    .ok (values.filter (fun x => x.isSome)).isEmpty
  else
    .error .keyError

/-- `CometBlueStates._STATUS_BITMASKS`, in the dict's insertion order. -/
def _STATUS_BITMASKS : List (String × Nat) :=
  [("childlock", 0x80),
   ("manual_mode", 0x1),
   ("adapting", 0x400),
   ("not_ready", 0x200),
   ("installing", 0x400 ||| 0x200 ||| 0x100),
   ("motor_moving", 0x100),
   ("antifrost_activated", 0x10),
   ("satisfied", 0x80000),
   ("low_battery", 0x800),
   ("unknown", 0x2000)]

/-- `decode_status` inside the `status_code` setter: zero-extend the three
bytes to a 32-bit word, test every named mask with full-mask containment
(`state_dword & mask == mask`) in the bitmask table's order, then append
`state_as_dword` and the residual `unused_bits`.  `~masked_out` on the
arbitrary-precision Python int clears exactly the mask bits of the
(at most 24-bit) word, here taken within 32 bits. -/
def decode_status (b0 b1 b2 : Nat) : List (String × StatusVal) :=
  let state_dword : Nat := b0 + 256 * b1 + 65536 * b2
  let masked_out : Nat := _STATUS_BITMASKS.foldl (fun acc p => acc ||| p.2) 0
  (_STATUS_BITMASKS.map
    (fun p => (p.1, StatusVal.vBool (state_dword &&& p.2 = p.2)))) ++
  [("state_as_dword", StatusVal.vInt state_dword),
   ("unused_bits", StatusVal.vInt (state_dword &&& (0xFFFFFFFF ^^^ masked_out)))]

/-- `encode_status` inside the `status_code` getter: OR together the mask
of every truthy entry whose key is in the bitmask table, then pack the
32-bit word little-endian and keep the low three bytes. -/
def encode_status (value : List (String × StatusVal)) : List Nat :=
  let status_dword : Nat := value.foldl
    (fun acc kv =>
      if ¬ kv.2.isTruthy then acc
      else
        match (_STATUS_BITMASKS.find? (fun p => p.1 == kv.1)).map (·.2) with
        | none => acc
        | some m => acc ||| m)
    0
  [status_dword % 256, status_dword / 256 % 256, status_dword / 65536 % 256]

/-- `CometBlueStates.status_code` getter: `None` when the `_status` dict is
empty, otherwise the encoded 3-byte telegram. -/
def status_code_get (s : CBState) : Option (List Nat) :=
  if s._status.isEmpty then none else some (encode_status s._status)

/-- The `actions` list of the `CometBlueStates.status` property. -/
def statusActions : List String :=
  ["adapting", "not_ready", "installing", "motor_moving", "unknown", "satisfied"]

/-- `CometBlueStates.status` property: collect, in the `_status` dict's own
iteration order, the keys whose value `is True` and which occur in
`actions`; return the first such key, or `"unknown"` if there is none. -/
def status (s : CBState) : String :=
  let active_actions :=
    (s._status.filter
      (fun kv => kv.2.isTrueLit && statusActions.contains kv.1)).map (·.1)
  match active_actions with
  | [] => "unknown"
  | a :: _ => a

/-- `CometBlue.should_update`: `not available`, or a pending target
`target_temperature`, or a pending target `offset_temperature`, or a
non-`None` target `status_code`. -/
def should_update (available : Bool) (target : CBState) : Bool :=
  !available
    || target.target_temperature.isSome
    || target.offset_temperature.isSome
    || (status_code_get target).isSome

/-- `_encode_datetime`: raise `RuntimeError('Invalid year')` when the year
is below 2000, otherwise `struct.pack('<BBBBB', minute, hour, day, month,
year - 2000)` (each value must fit an unsigned byte or `struct.error` is
raised). -/
def _encode_datetime (year month day hour minute : Int) :
    Except PyError (List Nat) :=
  if year < 2000 then .error (.runtimeError "Invalid year")
  else
    match packUByte minute, packUByte hour, packUByte day, packUByte month,
          packUByte (year - 2000) with
    | .ok b0, .ok b1, .ok b2, .ok b3, .ok b4 => .ok [b0, b1, b2, b3, b4]
    | .error e, _, _, _, _ => .error e
    | _, .error e, _, _, _ => .error e
    | _, _, .error e, _, _ => .error e
    | _, _, _, .error e, _ => .error e
    | _, _, _, _, .error e => .error e

/-- The PIN-authentication step at the end of `CometBlue._ensure_connected`:
`write_gatt_char(PASSWORD_CHAR, ...)` is awaited inside
`try: ... except BleakError: _LOGGER.error(...)`, so a `BleakError` from
the transport is caught and only logged while any other exception
propagates.  The argument is the outcome of the transport write. -/
def ensure_connected_pinStep (writeResult : Except PyError Unit) :
    Except PyError Unit :=
  match writeResult with
  | .ok () => .ok ()
  | .error (.bleakError _) => .ok ()
  | .error e => .error e

/-- The temperature-write phase of `CometBlue.update`:
`if not target.all_temperatures_none: write_gatt_char(..., target.temperatures, ...);
target.clear_temperatures()`.  `writeResult` is the transport's outcome for
the GATT write; `clear_temperatures` runs only after a successful write.
Returns the resulting target state and whether a write was issued. -/
def update_tempStep (target : CBState) (writeResult : Except PyError Unit) :
    Except PyError (CBState × Bool) :=
  match all_temperatures_none target with
  | .error e => .error e
  | .ok true => .ok (target, false)
  | .ok false =>
    match temperatures_get target with
    | .error e => .error e
    | .ok _ =>
      match writeResult with
      | .error e => .error e
      | .ok () => .ok (clear_temperatures target, true)

/-- The current-state half of the store, as mutated by successful reads:
a state is reachable when it arises from the freshly constructed
`CometBlueStates` by a sequence of applications of the `temperatures`
setter (the reads performed by `update()`). -/
inductive Reachable : CBState → Prop where
  | init : Reachable initState
  | tempRead (s s' : CBState) (v : List Nat) :
      Reachable s → temperatures_set s v = .ok s' → Reachable s'

instance {ε α : Type _} [DecidableEq ε] [DecidableEq α] : DecidableEq (Except ε α) := fun a b =>
  match a, b with
  | .ok x, .ok y => decidable_of_iff (x = y) (by simp)
  | .error e, .error f => decidable_of_iff (e = f) (by simp)
  | .ok _, .error _ => isFalse (fun h => Except.noConfusion h)
  | .error _, .ok _ => isFalse (fun h => Except.noConfusion h)

/-- A float field value representable at 0.5 °C resolution in one signed
byte: absent, or `k / 2` for a signed byte `k`. -/
def ValidQField (o : Option ℚ) : Prop :=
  o = none ∨ ∃ k : Int, -128 ≤ k ∧ k ≤ 127 ∧ o = some ((k : ℚ) / 2)

/-- An integer field value representable in one signed byte, or absent. -/
def ValidIField (o : Option Int) : Prop :=
  o = none ∨ ∃ n : Int, -128 ≤ n ∧ n ≤ 127 ∧ o = some n

/-- A valid combination of temperature-family fields in the sense of the
round-trip claim: every encodable field absent or representable. -/
def ValidTempFields (f : CBState) : Prop :=
  ValidQField f.target_temperature ∧ ValidQField f.target_temp_l ∧
  ValidQField f.target_temp_h ∧ ValidQField f.offset_temperature ∧
  ValidIField f.window_open_detection ∧ ValidIField f.window_open_minutes

/-- Look a key up in a decoded status report (association-list dict). -/
def flagOf (r : List (String × StatusVal)) (k : String) : Option StatusVal :=
  (r.find? (fun kv => kv.1 == k)).map (·.2)

/-- Whether a named flag of a decoded status report `is True`. -/
def flagTrue (r : List (String × StatusVal)) (k : String) : Bool :=
  match flagOf r k with
  | some v => v.isTrueLit
  | none => false

/-- The classification the claim describes, written from the spec's words:
the first name in the fixed precedence list
`[adapting, not_ready, installing, motor_moving, unknown, satisfied]`
whose flag is true, else `"unknown"` (for comparison with `status`). -/
def spec_status_first (r : List (String × StatusVal)) : String :=
  (statusActions.find? (fun k => flagTrue r k)).getD "unknown"

/-- `has_pending_writes` as the spec words it: some target
temperature-family field is non-absent, or the target status mapping is
non-empty (for comparison with `should_update`). -/
def spec_has_pending_writes (t : CBState) : Bool :=
  t.target_temperature.isSome || t.target_temp_l.isSome
    || t.target_temp_h.isSome || t.offset_temperature.isSome
    || t.window_open_detection.isSome || t.window_open_minutes.isSome
    || !t._status.isEmpty

/-- `should_update` as the claim words it: unavailable, or some pending
target change exists (for comparison with `should_update`). -/
def spec_should_update (available : Bool) (t : CBState) : Bool :=
  !available || spec_has_pending_writes t

/-- A valid field combination with a 20.0 °C manual setpoint pending. -/
def f0 : CBState := { initState with target_temperature := some 20 }

/-- The telegram `encode_temperature` produces for `f0`: the sentinel
`-128` (unsigned `128`) in the current-temperature slot, `40` for 20.0 °C,
sentinels elsewhere. -/
def f0bytes : List Nat := [128, 40, 128, 128, 128, 128, 128]

/-- A target state whose only pending change is `target_temp_l`. -/
def t5 : CBState := { initState with target_temp_l := some 20 }

/-- A target state with a pending 20.0 °C setpoint and an independently
pending `manual_mode` status flag. -/
def t8 : CBState :=
  { initState with
      target_temperature := some 20
      _status := [("manual_mode", StatusVal.vBool true)] }

/-- A target state with all six temperature-family fields set at once. -/
def t10 : CBState :=
  { initState with
      target_temperature := some 20
      target_temp_l := some 15
      target_temp_h := some 25
      offset_temperature := some 0
      window_open_detection := some 1
      window_open_minutes := some 30 }

/-- A sentinel-free telegram reporting a 20.0 °C manual temperature
(bytes: current 10.0, manual 20.0, low 15.0, high 25.0, offset 0.0,
window-open detection 1, window-open minutes 30). -/
def cexTeleOn : List Nat := [20, 40, 30, 50, 0, 1, 30]

/-- The same telegram with the manual temperature replaced by the OFF
sentinel temperature 7.5 °C (signed byte 15). -/
def cexTeleOff : List Nat := [20, 15, 30, 50, 0, 1, 30]

/-- The state reached from `initState` by reading `cexTeleOn`. -/
def cexOn : CBState :=
  { initState with
      is_off := false
      target_temperature := some 20
      _current_temp := some 10
      target_temp_l := some 15
      target_temp_h := some 25
      offset_temperature := some 0
      window_open_detection := some 1
      window_open_minutes := some 30 }

/-- The state reached from `cexOn` by reading `cexTeleOff`: the device is
off but `target_temperature` keeps its previous 20.0 °C value. -/
def cexOff : CBState := { cexOn with is_off := true }

/-- The state reached from `initState` by reading `cexTeleOff` directly. -/
def cexOffFresh : CBState :=
  { initState with
      is_off := true
      _current_temp := some 10
      target_temp_l := some 15
      target_temp_h := some 25
      offset_temperature := some 0
      window_open_detection := some 1
      window_open_minutes := some 30 }

theorem truncQ_intCast (k : Int) : truncQ (k : ℚ) = k := by
  simp [truncQ, Rat.num_intCast, Rat.den_intCast]

theorem float_to_int_half (k : Int) : float_to_int (some ((k : ℚ) / 2)) = k := by
  have h : ((k : ℚ) / 2) * 2 = (k : ℚ) := by ring
  simp [float_to_int, h, truncQ_intCast]

theorem packSByte_ok (k : Int) (h1 : -128 ≤ k) (h2 : k ≤ 127) :
    packSByte k = .ok (Int.emod k 256).toNat := by
  simp [packSByte, h1, h2]

theorem packSByte_float_ok (o : Option ℚ) (h : ValidQField o) :
    ∃ b : Nat, packSByte (float_to_int o) = .ok b := by
  rcases h with h | ⟨k, hk1, hk2, hk⟩
  · subst h; exact ⟨128, by decide⟩
  · subst hk; rw [float_to_int_half]; exact ⟨_, packSByte_ok k hk1 hk2⟩

theorem packSByte_int_ok (o : Option Int) (h : ValidIField o) :
    ∃ b : Nat, packSByte (int_to_int o) = .ok b := by
  rcases h with h | ⟨n, hn1, hn2, hn⟩
  · subst h; exact ⟨128, by decide⟩
  · subst hn; exact ⟨_, packSByte_ok n hn1 hn2⟩

/-- C2: for every 7-byte temperature telegram in which any decoded
signed-byte value equals the sentinel `-128`, the `temperatures` setter
returns the state unchanged and raises no exception. -/
theorem C2_sentinel_discard (s : CBState) (b0 b1 b2 b3 b4 b5 b6 : Nat)
    (h : (-128 : Int) ∈ [toSByte b0, toSByte b1, toSByte b2, toSByte b3,
                         toSByte b4, toSByte b5, toSByte b6]) :
    temperatures_set s [b0, b1, b2, b3, b4, b5, b6] = .ok s := by
  simp only [temperatures_set]
  rw [if_pos h]

/-- Witness for C2 at the telegram `[128, 40, 30, 50, 0, 1, 30]` (sentinel
in the current-temperature slot) applied to the populated state `cexOn`. -/
theorem C2_sentinel_discard_witness :
    ((-128 : Int) ∈ [toSByte 128, toSByte 40, toSByte 30, toSByte 50,
                     toSByte 0, toSByte 1, toSByte 30]) ∧
    temperatures_set cexOn [128, 40, 30, 50, 0, 1, 30] = .ok cexOn :=
  ⟨by decide, C2_sentinel_discard cexOn 128 40 30 50 0 1 30 (by decide)⟩

/-- C6 counterexample: when the transport rejects the PIN write with a
`BleakError`, `_ensure_connected`'s PIN step completes successfully (the
rejection is swallowed after logging), contradicting the claim that the
session fails with an authentication error surfaced to the caller. -/
theorem C6_counterexample :
    ensure_connected_pinStep (.error (.bleakError "pin rejected")) = .ok () := rfl

/-- C6 amended: a `BleakError` from the PIN write is caught and only
logged, so `_ensure_connected` reports success anyway; only exceptions
other than `BleakError` propagate.  No `AuthenticationFailed` error
exists in the code. -/
theorem C6_amended (msg : String) :
    ensure_connected_pinStep (.error (.bleakError msg)) = .ok () ∧
    ensure_connected_pinStep (.error (.otherError msg)) = .error (.otherError msg) :=
  ⟨rfl, rfl⟩

/-- C9 counterexample: for year 2256 (≥ 2000), `_encode_datetime` does not
return 5 bytes but raises `struct.error` (the two-digit year overflows an
unsigned byte), and that error is not the invalid-year error. -/
theorem C9_counterexample :
    _encode_datetime 2256 1 1 0 0 = .error .structError ∧
    PyError.structError ≠ PyError.runtimeError "Invalid year" := by
  exact ⟨by decide, by decide⟩

/-- C9 amended: `_encode_datetime` raises the invalid-year error iff
`year < 2000`; for `2000 ≤ year ≤ 2255` it returns exactly the 5 bytes
`minute, hour, day, month, year - 2000`; for `year ≥ 2256` it raises
`struct.error` instead of returning bytes.  (Minute, hour, day and month
of a Python `datetime` always fit an unsigned byte.) -/
theorem C9_amended (y mo dy hr mi : Int)
    (hmo1 : 0 ≤ mo) (hmo2 : mo ≤ 255) (hdy1 : 0 ≤ dy) (hdy2 : dy ≤ 255)
    (hhr1 : 0 ≤ hr) (hhr2 : hr ≤ 255) (hmi1 : 0 ≤ mi) (hmi2 : mi ≤ 255) :
    (_encode_datetime y mo dy hr mi = .error (.runtimeError "Invalid year") ↔ y < 2000) ∧
    (2000 ≤ y → y ≤ 2255 →
      _encode_datetime y mo dy hr mi =
        .ok [mi.toNat, hr.toNat, dy.toNat, mo.toNat, (y - 2000).toNat]) ∧
    (2256 ≤ y → _encode_datetime y mo dy hr mi = .error .structError) := by
  by_cases hy : y < 2000
  · refine ⟨by simp [_encode_datetime, hy], ?_, ?_⟩
    · intro hge _; omega
    · intro hge; omega
  · have hmi3 : packUByte mi = .ok mi.toNat := by simp [packUByte, hmi1, hmi2]
    have hhr3 : packUByte hr = .ok hr.toNat := by simp [packUByte, hhr1, hhr2]
    have hdy3 : packUByte dy = .ok dy.toNat := by simp [packUByte, hdy1, hdy2]
    have hmo3 : packUByte mo = .ok mo.toNat := by simp [packUByte, hmo1, hmo2]
    by_cases hy2 : y ≤ 2255
    · have hc : 0 ≤ y - 2000 ∧ y - 2000 ≤ 255 := by omega
      have hyy : packUByte (y - 2000) = .ok (y - 2000).toNat := by
        simp [packUByte, hc.1, hc.2]
      have hres : _encode_datetime y mo dy hr mi =
          .ok [mi.toNat, hr.toNat, dy.toNat, mo.toNat, (y - 2000).toNat] := by
        simp [_encode_datetime, hy, hmi3, hhr3, hdy3, hmo3, hyy]
      refine ⟨by simp [hres, hy], fun _ _ => hres, fun hge => absurd hge (by omega)⟩
    · have hc : ¬ (0 ≤ y - 2000 ∧ y - 2000 ≤ 255) := by omega
      have hyy : packUByte (y - 2000) = .error .structError := by
        simp only [packUByte, if_neg hc]
      have hres : _encode_datetime y mo dy hr mi = .error .structError := by
        simp [_encode_datetime, hy, hmi3, hhr3, hdy3, hmo3, hyy]
      refine ⟨by simp [hres, hy], fun _ hle => absurd hle (by omega), fun _ => hres⟩

/-- Witness for C9 at 2024-10-12 00:30. -/
theorem C9_amended_witness :
    (_encode_datetime 2024 10 12 0 30 = .error (.runtimeError "Invalid year") ↔ (2024 : Int) < 2000) ∧
    ((2000 : Int) ≤ 2024 → (2024 : Int) ≤ 2255 →
      _encode_datetime 2024 10 12 0 30 =
        .ok [(30 : Int).toNat, (0 : Int).toNat, (12 : Int).toNat, (10 : Int).toNat, ((2024 : Int) - 2000).toNat]) ∧
    ((2256 : Int) ≤ 2024 → _encode_datetime 2024 10 12 0 30 = .error .structError) :=
  C9_amended 2024 10 12 0 30 (by decide) (by decide) (by decide) (by decide)
    (by decide) (by decide) (by decide) (by decide)

/-- C10: when all six target temperature-family fields are simultaneously
set, `all_temperatures_none` raises `KeyError` (the `set.remove(None)`
finds no `None`), so the temperature-write phase of `update()` fails
before any telegram is written. -/
theorem C10_allset_keyerror (t : CBState) (w : Except PyError Unit)
    (h1 : t.target_temperature.isSome = true) (h2 : t.target_temp_l.isSome = true)
    (h3 : t.target_temp_h.isSome = true) (h4 : t.offset_temperature.isSome = true)
    (h5 : t.window_open_detection.isSome = true) (h6 : t.window_open_minutes.isSome = true) :
    all_temperatures_none t = .error .keyError ∧
    update_tempStep t w = .error .keyError := by
  obtain ⟨q1, e1⟩ := Option.isSome_iff_exists.mp h1
  obtain ⟨q2, e2⟩ := Option.isSome_iff_exists.mp h2
  obtain ⟨q3, e3⟩ := Option.isSome_iff_exists.mp h3
  obtain ⟨q4, e4⟩ := Option.isSome_iff_exists.mp h4
  obtain ⟨n5, e5⟩ := Option.isSome_iff_exists.mp h5
  obtain ⟨n6, e6⟩ := Option.isSome_iff_exists.mp h6
  have hall : all_temperatures_none t = .error .keyError := by
    simp [all_temperatures_none, e1, e2, e3, e4, e5, e6, List.mem_dedup]
  exact ⟨hall, by simp [update_tempStep, hall]⟩

/-- Witness for C10 at the fully populated target state `t10`. -/
theorem C10_allset_keyerror_witness :
    t10.target_temperature.isSome = true ∧ t10.target_temp_l.isSome = true ∧
    t10.target_temp_h.isSome = true ∧ t10.offset_temperature.isSome = true ∧
    t10.window_open_detection.isSome = true ∧ t10.window_open_minutes.isSome = true ∧
    all_temperatures_none t10 = .error .keyError ∧
    update_tempStep t10 (.ok ()) = .error .keyError :=
  ⟨rfl, rfl, rfl, rfl, rfl, rfl,
    (C10_allset_keyerror t10 (.ok ()) rfl rfl rfl rfl rfl rfl).1,
    (C10_allset_keyerror t10 (.ok ()) rfl rfl rfl rfl rfl rfl).2⟩

theorem tempSet_sentinel_head (s : CBState) (b1 b2 b3 b4 b5 b6 : Nat) :
    temperatures_set s [128, b1, b2, b3, b4, b5, b6] = .ok s := by
  have hmem : (-128 : Int) ∈ [toSByte 128, toSByte b1, toSByte b2, toSByte b3,
                              toSByte b4, toSByte b5, toSByte b6] :=
    List.mem_cons.mpr (Or.inl (by decide))
  simp only [temperatures_set]
  rw [if_pos hmem]

/-- C1 counterexample: for the valid field combination `f0`
(`target_temperature = 20.0 °C`, all other fields absent), the telegram
produced by the `temperatures` getter carries the sentinel in its
current-temperature byte, so decoding it into a fresh state discards it:
the decoded state keeps `target_temperature = None` and does not equal
`f0`.  The round trip does not reproduce the fields from the bytes. -/
theorem C1_counterexample :
    ValidTempFields f0 ∧
    temperatures_get f0 = .ok f0bytes ∧
    temperatures_set initState f0bytes = .ok initState ∧
    initState.target_temperature ≠ f0.target_temperature := by
  refine ⟨⟨Or.inr ⟨40, by decide, by decide, ?_⟩,
          Or.inl rfl, Or.inl rfl, Or.inl rfl, Or.inl rfl, Or.inl rfl⟩, ?_, ?_, ?_⟩
  · show (some (20 : ℚ) : Option ℚ) = some (((40 : Int) : ℚ) / 2)
    norm_num
  · have e20 : (20 : ℚ) = ((40 : Int) : ℚ) / 2 := by norm_num
    have h1 : float_to_int f0.target_temperature = 40 := by
      show float_to_int (some (20 : ℚ)) = 40
      rw [e20, float_to_int_half]
    simp only [temperatures_get, h1]
    have hn : float_to_int none = -128 := rfl
    have hi : int_to_int none = -128 := rfl
    simp only [f0, initState, hn, hi]
    rw [packSByte_ok (-128) (by decide) (by decide), packSByte_ok 40 (by decide) (by decide)]
    decide
  · exact tempSet_sentinel_head initState 40 128 128 128 128 128
  · simp [initState, f0]

/-- C1 amended: for every valid field combination `f`, encoding succeeds
and always yields a telegram whose current-temperature byte is the
sentinel `-128`; decoding that telegram into any state `s` discards it
and leaves `s` unchanged.  The literal equation
`decode_temperature(encode_temperature(f)) == f` therefore holds only in
the degenerate sense that applying the decode to `f` itself returns `f`
unchanged; the fields are never reconstructed from the bytes. -/
theorem C1_roundtrip_discard (s f : CBState) (hf : ValidTempFields f) :
    ∃ bs, temperatures_get f = .ok bs ∧ temperatures_set s bs = .ok s := by
  obtain ⟨hq1, hq2, hq3, hq4, hi5, hi6⟩ := hf
  obtain ⟨v1, e1⟩ := packSByte_float_ok _ hq1
  obtain ⟨v2, e2⟩ := packSByte_float_ok _ hq2
  obtain ⟨v3, e3⟩ := packSByte_float_ok _ hq3
  obtain ⟨v4, e4⟩ := packSByte_float_ok _ hq4
  obtain ⟨v5, e5⟩ := packSByte_int_ok _ hi5
  obtain ⟨v6, e6⟩ := packSByte_int_ok _ hi6
  have e0 : packSByte (-128) = .ok 128 := by decide
  refine ⟨[128, v1, v2, v3, v4, v5, v6], ?_, tempSet_sentinel_head s v1 v2 v3 v4 v5 v6⟩
  simp only [temperatures_get, e0, e1, e2, e3, e4, e5, e6]

/-- Witness for C1 amended: the valid combination `f0` encodes
successfully and decoding the result leaves the receiving state `cexOn`
unchanged. -/
theorem C1_roundtrip_discard_witness :
    ValidTempFields f0 ∧
    ∃ bs, temperatures_get f0 = .ok bs ∧ temperatures_set cexOn bs = .ok cexOn := by
  have hv : ValidTempFields f0 :=
    ⟨Or.inr ⟨40, by decide, by decide, by show (some (20 : ℚ) : Option ℚ) = some (((40 : Int) : ℚ) / 2); norm_num⟩,
     Or.inl rfl, Or.inl rfl, Or.inl rfl, Or.inl rfl, Or.inl rfl⟩
  exact ⟨hv, C1_roundtrip_discard cexOn f0 hv⟩

/-- C7 counterexample: the state `cexOff` is reachable (two successful
temperature reads from the fresh state); it has `is_off = true` while
`target_temperature` is the preserved 20.0 °C, not the OFF sentinel
7.5 °C — refuting the claimed equivalence. -/
theorem C7_counterexample :
    temperatures_set initState cexTeleOn = .ok cexOn ∧
    temperatures_set cexOn cexTeleOff = .ok cexOff ∧
    Reachable cexOff ∧
    cexOff.is_off = true ∧
    cexOff.target_temperature = some 20 ∧
    (20 : ℚ) ≠ TEMPERATURE_OFF := by
  have h1 : temperatures_set initState cexTeleOn = .ok cexOn := by
    simp [temperatures_set, toSByte, TEMPERATURE_OFF, cexTeleOn, cexOn, initState]
    norm_num
  have h2 : temperatures_set cexOn cexTeleOff = .ok cexOff := by
    simp [temperatures_set, toSByte, TEMPERATURE_OFF, cexTeleOff, cexOff, cexOn, initState]
    norm_num
  refine ⟨h1, h2, ?_, rfl, rfl, by norm_num [TEMPERATURE_OFF]⟩
  exact Reachable.tempRead cexOn cexOff cexTeleOff
    (Reachable.tempRead initState cexOn cexTeleOn Reachable.init h1) h2

/-- C7 amended: after a successful (sentinel-free) temperature read,
`is_off` is true iff the telegram's manual-temperature byte decodes to
the OFF sentinel 7.5 °C; when `is_off` is false `target_temperature`
equals the telegram's manual temperature, and when `is_off` is true
`target_temperature` keeps its previous value (so it need not be 7.5). -/
theorem C7_is_off_read (s s' : CBState) (b0 b1 b2 b3 b4 b5 b6 : Nat)
    (hns : (-128 : Int) ∉ [toSByte b0, toSByte b1, toSByte b2, toSByte b3,
                           toSByte b4, toSByte b5, toSByte b6])
    (hset : temperatures_set s [b0, b1, b2, b3, b4, b5, b6] = .ok s') :
    (s'.is_off = true ↔ (toSByte b1 : ℚ) / 2 = TEMPERATURE_OFF) ∧
    (s'.is_off = false → s'.target_temperature = some ((toSByte b1 : ℚ) / 2)) ∧
    (s'.is_off = true → s'.target_temperature = s.target_temperature) := by
  simp only [temperatures_set] at hset
  rw [if_neg hns] at hset
  by_cases hoff : (toSByte b1 : ℚ) / 2 = TEMPERATURE_OFF
  · rw [if_pos hoff] at hset
    injection hset with hset
    subst hset
    simp [hoff]
  · rw [if_neg hoff] at hset
    injection hset with hset
    subst hset
    simp [hoff]

/-- Witness for C7 amended at the OFF telegram `cexTeleOff` read from the
fresh state. -/
theorem C7_is_off_read_witness :
    ((cexOffFresh.is_off = true ↔ (toSByte 15 : ℚ) / 2 = TEMPERATURE_OFF) ∧
     (cexOffFresh.is_off = false →
        cexOffFresh.target_temperature = some ((toSByte 15 : ℚ) / 2)) ∧
     (cexOffFresh.is_off = true →
        cexOffFresh.target_temperature = initState.target_temperature)) :=
  C7_is_off_read initState cexOffFresh 20 15 30 50 0 1 30 (by decide)
    (by simp [temperatures_set, toSByte, TEMPERATURE_OFF, cexOffFresh, initState]
        norm_num)

/-- C8: when the target state has pending temperature fields
(`all_temperatures_none` is `ok false`) and the telegram encodes, the
temperature-write phase of `update()` with a confirmed write clears all
six target temperature-family fields to absent (no temperature write is
pending any more), while the `_status` dict — and hence any
independently-set pending status flag and its pending `status_code`
telegram — is left untouched. -/
theorem C8_confirmed_write_clears (t : CBState) (bs : List Nat)
    (hpend : all_temperatures_none t = .ok false)
    (henc : temperatures_get t = .ok bs) :
    update_tempStep t (.ok ()) = .ok (clear_temperatures t, true) ∧
    (clear_temperatures t).target_temperature = none ∧
    (clear_temperatures t).target_temp_l = none ∧
    (clear_temperatures t).target_temp_h = none ∧
    (clear_temperatures t).offset_temperature = none ∧
    (clear_temperatures t).window_open_detection = none ∧
    (clear_temperatures t).window_open_minutes = none ∧
    all_temperatures_none (clear_temperatures t) = .ok true ∧
    (clear_temperatures t)._status = t._status ∧
    status_code_get (clear_temperatures t) = status_code_get t := by
  refine ⟨?_, rfl, rfl, rfl, rfl, rfl, rfl, rfl, rfl, rfl⟩
  simp only [update_tempStep, hpend, henc]

/-- Witness for C8 at the target `t8` (pending 20.0 °C setpoint plus a
pending `manual_mode` status flag). -/
theorem C8_confirmed_write_clears_witness :
    all_temperatures_none t8 = .ok false ∧
    update_tempStep t8 (.ok ()) = .ok (clear_temperatures t8, true) ∧
    all_temperatures_none (clear_temperatures t8) = .ok true ∧
    status_code_get (clear_temperatures t8) = some [1, 0, 0] := by
  have hpend : all_temperatures_none t8 = .ok false := rfl
  have henc : temperatures_get t8 = .ok f0bytes := by
    have e20 : (20 : ℚ) = ((40 : Int) : ℚ) / 2 := by norm_num
    have h1 : float_to_int t8.target_temperature = 40 := by
      show float_to_int (some (20 : ℚ)) = 40
      rw [e20, float_to_int_half]
    simp only [temperatures_get, h1]
    have hn : float_to_int none = -128 := rfl
    have hi : int_to_int none = -128 := rfl
    simp only [t8, initState, hn, hi]
    rw [packSByte_ok (-128) (by decide) (by decide), packSByte_ok 40 (by decide) (by decide)]
    decide
  obtain ⟨hu, _, _, _, _, _, _, hclr, _, _⟩ := C8_confirmed_write_clears t8 f0bytes hpend henc
  exact ⟨hpend, hu, hclr, by decide⟩

theorem status_decodeShape (c m a nr ins mm w sat lb u : Bool) (d r : Nat) :
    status { initState with _status :=
      [("childlock", .vBool c), ("manual_mode", .vBool m), ("adapting", .vBool a),
       ("not_ready", .vBool nr), ("installing", .vBool ins), ("motor_moving", .vBool mm),
       ("antifrost_activated", .vBool w), ("satisfied", .vBool sat),
       ("low_battery", .vBool lb), ("unknown", .vBool u),
       ("state_as_dword", .vInt d), ("unused_bits", .vInt r)] } =
    (if a = true then "adapting"
     else if nr = true then "not_ready"
     else if ins = true then "installing"
     else if mm = true then "motor_moving"
     else if sat = true then "satisfied"
     else if u = true then "unknown"
     else "unknown") := by
  have h1 : ¬ ("childlock" ∈ statusActions) := by decide
  have h2 : ¬ ("manual_mode" ∈ statusActions) := by decide
  have h3 : "adapting" ∈ statusActions := by decide
  have h4 : "not_ready" ∈ statusActions := by decide
  have h5 : "installing" ∈ statusActions := by decide
  have h6 : "motor_moving" ∈ statusActions := by decide
  have h7 : ¬ ("antifrost_activated" ∈ statusActions) := by decide
  have h8 : "satisfied" ∈ statusActions := by decide
  have h9 : ¬ ("low_battery" ∈ statusActions) := by decide
  have h10 : "unknown" ∈ statusActions := by decide
  have h11 : ¬ ("state_as_dword" ∈ statusActions) := by decide
  have h12 : ¬ ("unused_bits" ∈ statusActions) := by decide
  cases a <;> cases nr <;> cases ins <;> cases mm <;> cases sat <;> cases u <;>
    simp [status, List.filter_cons, StatusVal.isTrueLit,
          h1, h2, h3, h4, h5, h6, h7, h8, h9, h10, h11, h12]

/-- C3 counterexample: decoding the status telegram with 32-bit word
`0x700` yields `adapting = true` (full-mask containment of `0x400` in
`0x700`), not `adapting = false` as claimed. -/
theorem C3_counterexample :
    flagOf (decode_status 0 7 0) "adapting" = some (.vBool true) ∧
    flagOf (decode_status 0 7 0) "adapting" ≠ some (.vBool false) := by
  exact ⟨by decide, by decide⟩

/-- C3 amended: decoding the 3-byte status telegram whose zero-extended
32-bit word is `0x700` yields `installing = true`, `motor_moving = true`,
`not_ready = true` and also `adapting = true`, each flag tested by
full-mask containment. -/
theorem C3_status_0x700 :
    flagOf (decode_status 0 7 0) "state_as_dword" = some (.vInt 0x700) ∧
    flagOf (decode_status 0 7 0) "installing" = some (.vBool true) ∧
    flagOf (decode_status 0 7 0) "motor_moving" = some (.vBool true) ∧
    flagOf (decode_status 0 7 0) "not_ready" = some (.vBool true) ∧
    flagOf (decode_status 0 7 0) "adapting" = some (.vBool true) := by
  exact ⟨by decide, by decide, by decide, by decide, by decide⟩

/-- C4 counterexample: for the decoded status word `0x82000`
(`satisfied` and `unknown` both true), the `status` property returns
`"satisfied"` — the first true flag in the `_status` dict's insertion
order — while the claimed precedence list
`[adapting, not_ready, installing, motor_moving, unknown, satisfied]`
would return `"unknown"`. -/
theorem C4_counterexample :
    status { initState with _status := decode_status 0 32 8 } = "satisfied" ∧
    spec_status_first (decode_status 0 32 8) = "unknown" ∧
    status { initState with _status := decode_status 0 32 8 } ≠
      spec_status_first (decode_status 0 32 8) := by
  exact ⟨by decide, by decide, by decide⟩

/-- C4 amended: for every decoded 3-byte status telegram, the `status`
property returns the first name in the bitmask-table insertion order
`[adapting, not_ready, installing, motor_moving, satisfied, unknown]`
whose flag is true, and `"unknown"` when none is (in particular
`{motor_moving, adapting}` still classifies as `"adapting"`, but
`satisfied` now precedes `unknown`). -/
theorem C4_status_order (b0 b1 b2 : Nat) :
    status { initState with _status := decode_status b0 b1 b2 } =
    (if (b0 + 256 * b1 + 65536 * b2) &&& 0x400 = 0x400 then "adapting"
     else if (b0 + 256 * b1 + 65536 * b2) &&& 0x200 = 0x200 then "not_ready"
     else if (b0 + 256 * b1 + 65536 * b2) &&& 0x700 = 0x700 then "installing"
     else if (b0 + 256 * b1 + 65536 * b2) &&& 0x100 = 0x100 then "motor_moving"
     else if (b0 + 256 * b1 + 65536 * b2) &&& 0x80000 = 0x80000 then "satisfied"
     else if (b0 + 256 * b1 + 65536 * b2) &&& 0x2000 = 0x2000 then "unknown"
     else "unknown") := by
  have hm : (0x400 ||| 0x200 ||| 0x100 : Nat) = 0x700 := by decide
  simp only [decode_status, _STATUS_BITMASKS, List.map_cons, List.map_nil,
             List.cons_append, List.nil_append, hm]
  rw [status_decodeShape]
  simp only [decide_eq_true_eq]

/-- C5 counterexample: with the device available and only
`target_temp_l` pending on the target (a non-absent temperature-family
field), `should_update` returns `false`, while the claimed
characterization (unavailable or any pending target change) says `true`. -/
theorem C5_counterexample :
    should_update true t5 = false ∧
    spec_should_update true t5 = true ∧
    t5.target_temp_l = some 20 := by
  exact ⟨rfl, rfl, rfl⟩

/-- C5 amended: `should_update` is true iff the device is unavailable, or
the target's `target_temperature` or `offset_temperature` is non-absent,
or the target's status mapping is non-empty; pending `target_temp_l`,
`target_temp_h`, `window_open_detection` and `window_open_minutes` alone
do not trigger an update. -/
theorem C5_should_update_iff (a : Bool) (t : CBState) :
    should_update a t = true ↔
      (a = false ∨ t.target_temperature ≠ none ∨ t.offset_temperature ≠ none ∨
        t._status ≠ []) := by
  have hsc : (status_code_get t).isSome = !t._status.isEmpty := by
    by_cases h : t._status.isEmpty <;> simp [status_code_get, h]
  cases a <;>
    simp [should_update, hsc, Option.isSome_iff_ne_none, List.isEmpty_iff, or_assoc]
